import Mathlib

/-!
Verification of the AdCP:Buy full-lifecycle simulation driver
(`simulation_full.py`, class `FullLifecycleSimulation`).

The driver issues a bounded, deterministic sequence of remote calls and
branches only on fields of their structured responses.  We embed it as a
pure function of a *script*: the list of raw outcomes of the successive
remote calls, consumed strictly in order.  Each phase of `run` mirrors the
corresponding `_phase_N` method; the embedding records the trace of issued
calls (with the parameters the decision logic chooses) together with the
state the Python object mutates (`media_buy_id`, `creative_ids`, the
delivery snapshots, the final report).

Dates are embedded as day-of-year ordinals for 2025, so that Python
`date + timedelta(days = n)` becomes integer addition and the calendar
order of the hardcoded dates is preserved.

Money and indices are embedded as `Rat`; impression and day counts as
`Int` (matching Python `dict.get(key, 0)` defaults).
-/

/-- Day ordinal of 2025-06-05, the hardcoded planning date. -/
def planning_date : Int := 156

/-- Day ordinal of 2025-06-15, the hardcoded buy date. -/
def buy_date : Int := 166

/-- Day ordinal of 2025-06-20, the hardcoded creative submission date. -/
def creative_date : Int := 171

/-- Day ordinal of 2025-08-01, the hardcoded flight start. -/
def flight_start : Int := 213

/-- Day ordinal of 2025-08-15, the hardcoded flight end. -/
def flight_end : Int := 227

/-- One entry of a `statuses` list in a submit or status-check response:
`status.get("creative_id")` and `status.get("status", ...)` are `Option`s. -/
structure CreativeStatusEntry where
  creative_id : Option String := none
  status : Option String := none
deriving DecidableEq

/-- Structured content of a remote response, restricted to the fields the
driver reads.  A field the mapping lacks is `none`; `resp.get(k, d)` in the
Python source becomes `field.getD d`. -/
structure Resp where
  media_buy_id : Option String := none
  statuses : Option (List CreativeStatusEntry) := none
  status : Option String := none
  spend : Option Rat := none
  impressions : Option Int := none
  days_elapsed : Option Int := none
  total_days : Option Int := none
  pacing : Option String := none
  total_budget : Option Rat := none
  products : Option (List String) := none
deriving DecidableEq

/-- The empty structured content, returned by `_call_tool` on failure. -/
def emptyResp : Resp := {}

/-- Raw outcome of one remote invocation, before `_call_tool` normalizes it:
the call may raise, succeed without a `structured_content` attribute, or
succeed with structured content. -/
inductive RawResult where
  | raises
  | okNoContent
  | ok (content : Resp)
deriving DecidableEq

/-- Embedding of `_call_tool` (lines 64-71): exceptions are caught and
reported, and both an exception and a success without structured content
yield the empty mapping; only a success with content returns that content.
The function is total, so no exception propagates to any caller. -/
def callTool : RawResult → Resp
  | RawResult.raises => emptyResp
  | RawResult.okNoContent => emptyResp
  | RawResult.ok m => m

/-- The response the driver sees for the next call of a script: the head of
the script, normalized by `callTool`.  An exhausted script behaves like a
raising call (the failure-absorbing case). -/
def step1 (s : List RawResult) : Resp :=
  callTool (s.headD RawResult.raises)

/-- The response the driver sees for the j-th call consumed from script
position j (0-based). -/
def respAt (s : List RawResult) (j : Nat) : Resp :=
  callTool (s.getD j RawResult.raises)

/-- Creative ids hardcoded in the phase-3 submit request. -/
def submittedCreativeIds : List String :=
  ["cr_purina_dog_30s_v1", "cr_purina_cat_30s_v1"]

/-- Geography list of the original phase-2 targeting overlay. -/
def buyGeography : List String := ["USA-CA", "USA-NY"]

/-- Excluded content categories of the original phase-2 overlay. -/
def buyExclusions : List String := ["controversial", "politics"]

/-- Geography list of the widened overlay sent on under-delivery. -/
def expandedGeography : List String := ["USA-CA", "USA-NY", "USA-TX", "USA-FL"]

/-- Excluded categories of the reduced overlay sent on under-delivery. -/
def reducedExclusions : List String := ["controversial"]

/-- Product id hardcoded in the buy and performance-feedback requests. -/
def productId : String := "prod_video_guaranteed_sports"

/-- One remote call as issued by the driver, carrying the parameters the
decision logic chooses (fixed request fields are kept as the constants
above). -/
inductive Call where
  | list_products
  | create_media_buy
  | submit_creatives (media_buy_id : Option String) (creative_ids : List String)
  | check_creative_status (creative_ids : List (Option String))
  | get_media_buy_delivery (media_buy_id : Option String) (today : Int)
  | update_performance_index (media_buy_id : Option String) (product_id : String)
      (performance_index : Rat) (confidence_score : Rat)
  | update_media_buy (media_buy_id : Option String) (geography : List String)
      (content_categories_exclude : List String)
deriving DecidableEq

/-- Output of one phase: its phase-specific result, the calls it issued in
order, and the unconsumed remainder of the script. -/
structure PhaseOut (α : Type) where
  out : α
  calls : List Call
  rest : List RawResult

/-- Phase 1 (lines 78-108): one `list_products` call; the driver stores the
product list and renders it.  No decision is taken. -/
def phase1 (s : List RawResult) : PhaseOut (List String) :=
  { out := (step1 s).products.getD []
    calls := [Call.list_products]
    rest := s.tail }

/-- Phase 2 (lines 110-143): one `create_media_buy` call;
`self.media_buy_id = buy_response.get("media_buy_id")`. -/
def phase2 (s : List RawResult) : PhaseOut (Option String) :=
  { out := (step1 s).media_buy_id
    calls := [Call.create_media_buy]
    rest := s.tail }

/-- Python truthiness of the stored media-buy id: `if self.media_buy_id:` is
false for a missing id and for the empty string. -/
def truthy : Option String → Bool
  | none => false
  | some s => !(s == "")

/-- The three scheduled approval check dates (lines 180-184). -/
def approval_days : List Int :=
  [creative_date + 1, creative_date + 2, creative_date + 3]

/-- The loop-exit test of lines 193-199: `all_approved` starts true and is
cleared by any returned status entry whose status (default "unknown") is not
"approved"; it is therefore vacuously true on an empty statuses list. -/
def allApproved (statuses : List CreativeStatusEntry) : Bool :=
  statuses.all (fun st => st.status.getD "unknown" == "approved")

/-- The approval polling loop of lines 186-203: for each scheduled check
date in order, issue one `check_creative_status` for the tracked ids; if
every returned status is "approved", break out of the schedule. -/
def pollLoop (ids : List (Option String)) :
    List Int → List RawResult → List Call × List RawResult
  | [], s => ([], s)
  | _ :: ds, s =>
    let resp := step1 s
    if allApproved (resp.statuses.getD []) then
      ([Call.check_creative_status ids], s.tail)
    else
      let r := pollLoop ids ds s.tail
      (Call.check_creative_status ids :: r.1, r.2)

/-- The tracked id of one submit-response entry: `status.get("creative_id")`
(line 174). -/
def trackedId (st : CreativeStatusEntry) : Option String :=
  st.creative_id

/-- Phase 3 (lines 145-203): one `submit_creatives` call; the tracked
creative ids are those carried by the statuses of the submit *response*
(lines 172-174); then the approval polling loop over `approval_days`. -/
def phase3 (mb : Option String) (s : List RawResult) :
    PhaseOut (List (Option String)) :=
  let resp := step1 s
  let ids := (resp.statuses.getD []).map trackedId
  let p := pollLoop ids approval_days s.tail
  { out := ids
    calls := Call.submit_creatives mb submittedCreativeIds :: p.1
    rest := p.2 }

/-- Phase 4 (lines 205-231): one delivery read two days before flight start;
purely observational. -/
def phase4 (mb : Option String) (s : List RawResult) : PhaseOut (Int × Resp) :=
  { out := (flight_start - 2, step1 s)
    calls := [Call.get_media_buy_delivery mb (flight_start - 2)]
    rest := s.tail }

/-- The four scheduled in-flight monitoring dates (lines 238-243): launch
day, +2, +5 and +8 days into flight. -/
def monitoring_days : List Int :=
  [flight_start, flight_start + 2, flight_start + 5, flight_start + 8]

/-- Phase 5 monitoring loop (lines 247-278): one delivery read per scheduled
date, each appended to the accumulated series. -/
def phase5Loop (mb : Option String) :
    List Int → List RawResult → PhaseOut (List (Int × Resp))
  | [], s => { out := [], calls := [], rest := s }
  | d :: ds, s =>
    let resp := step1 s
    let r := phase5Loop mb ds s.tail
    { out := (d, resp) :: r.out
      calls := Call.get_media_buy_delivery mb d :: r.calls
      rest := r.rest }

/-- Effective CPM as computed at lines 276-278 and 390: guarded by
`impressions > 0`, otherwise not computed at all (so no division-by-zero
fault is reachable). -/
def effectiveCpm (spend : Rat) (impressions : Int) : Option Rat :=
  if impressions > 0 then some (spend / (impressions : Rat) * 1000) else none

/-- The in-flight CPM displays of lines 275-278, one per monitoring read. -/
def inflightCpmDisplays (mb : Option String) (s : List RawResult) :
    List (Option Rat) :=
  ((phase5Loop mb monitoring_days s).out).map
    (fun p => effectiveCpm (p.2.spend.getD 0) (p.2.impressions.getD 0))

/-- The two-tier performance index of line 320:
`1.2 if delivery_response.get("pacing") == "on_track" else 0.85`.
Note the un-defaulted `get`: a missing pacing compares unequal and falls to
the 0.85 tier. -/
def perfIndex (pacing : Option String) : Rat :=
  if pacing = some "on_track" then 12 / 10 else 85 / 100

/-- The fixed confidence score of line 328. -/
def confidenceScore : Rat := 92 / 100

/-- Phase 6 (lines 298-366): one delivery read at +7 days into flight; the
performance feedback is sent unconditionally (lines 320-333) before the
pacing branch; only the `under_delivery` branch issues a further
`update_media_buy` carrying the widened overlay (lines 340-360);
`over_delivery` and every other pacing value issue no mutation. -/
def phase6 (mb : Option String) (s : List RawResult) : PhaseOut (Int × Resp) :=
  let d := flight_start + 7
  let resp := step1 s
  let s2 := s.tail.tail
  if resp.pacing.getD "unknown" = "under_delivery" then
    { out := (d, resp)
      calls := [Call.get_media_buy_delivery mb d,
                Call.update_performance_index mb productId
                  (perfIndex resp.pacing) confidenceScore,
                Call.update_media_buy mb expandedGeography reducedExclusions]
      rest := s2.tail }
  else
    { out := (d, resp)
      calls := [Call.get_media_buy_delivery mb d,
                Call.update_performance_index mb productId
                  (perfIndex resp.pacing) confidenceScore]
      rest := s2 }

/-- The hardcoded budget of line 396. -/
def campaignBudget : Rat := 50000

/-- The completion classification of lines 395-406: delivery percentage
guarded against a non-positive budget, then the three-tier cut at the
inclusive bounds 95 and 80. -/
def classify (spend budget : Rat) : Rat × String :=
  let pct := if budget > 0 then spend / budget * 100 else 0
  if pct ≥ 95 then (pct, "excellent")
  else if pct ≥ 80 then (pct, "good")
  else (pct, "under-delivery")

/-- The final campaign report assembled in phase 7. -/
structure Report where
  media_buy_id : Option String
  status : String
  spend : Rat
  impressions : Int
  cpm : Option Rat
  delivery_pct : Rat
  tier : String
deriving DecidableEq

/-- Phase 7 (lines 368-408): one delivery read one day after flight end,
then the final report: CPM guarded by `impressions > 0` (line 390) and the
delivery classification against the hardcoded budget. -/
def phase7 (mb : Option String) (s : List RawResult) :
    PhaseOut (Report × (Int × Resp)) :=
  let resp := step1 s
  let spend := resp.spend.getD 0
  let imps := resp.impressions.getD 0
  let c := classify spend campaignBudget
  { out := ({ media_buy_id := mb
              status := resp.status.getD "unknown"
              spend := spend
              impressions := imps
              cpm := effectiveCpm spend imps
              delivery_pct := c.1
              tier := c.2 },
            (flight_end + 1, resp))
    calls := [Call.get_media_buy_delivery mb (flight_end + 1)]
    rest := s.tail }

/-- Result of one full run: whether it aborted at the phase-2 fatal check,
the ordered call trace, and the state the driver accumulated. `snapshots`
is the time-ordered list of every delivery fetch (as-of date paired with
the response), `inflight` its phase-5 sub-series. -/
structure RunResult where
  aborted : Bool
  trace : List Call
  media_buy_id : Option String := none
  creative_ids : List (Option String) := []
  snapshots : List (Int × Resp) := []
  inflight : List (Int × Resp) := []
  report : Option Report := none

/-- The whole simulation (method `run`, lines 46-59): the seven phases in
order, except that a falsy media-buy id after phase 2 raises at line 143 and
stops the run before any phase-3 call. -/
def run (s : List RawResult) : RunResult :=
  let p1 := phase1 s
  let p2 := phase2 p1.rest
  if truthy p2.out then
    let mb := p2.out
    let p3 := phase3 mb p2.rest
    let p4 := phase4 mb p3.rest
    let p5 := phase5Loop mb monitoring_days p4.rest
    let p6 := phase6 mb p5.rest
    let p7 := phase7 mb p6.rest
    { aborted := false
      trace := p1.calls ++ p2.calls ++ p3.calls ++ p4.calls ++ p5.calls
                 ++ p6.calls ++ p7.calls
      media_buy_id := mb
      creative_ids := p3.out
      snapshots := p4.out :: (p5.out ++ [p6.out, p7.out.2])
      inflight := p5.out
      report := some p7.out.1 }
  else
    { aborted := true
      trace := p1.calls ++ p2.calls }

/-- Whether a call is a `check_creative_status` query. -/
def isCheck : Call → Bool
  | Call.check_creative_status _ => true
  | _ => false

/-- Whether a call is an `update_performance_index` feedback. -/
def isPerf : Call → Bool
  | Call.update_performance_index _ _ _ _ => true
  | _ => false

/-- Whether a call is an `update_media_buy` mutation. -/
def isUpdateMB : Call → Bool
  | Call.update_media_buy _ _ _ => true
  | _ => false

/-- Number of creative status checks in a trace. -/
def countCheck (t : List Call) : Nat :=
  (t.filter isCheck).length

/-- Whether an integer list is monotonically non-decreasing. -/
def nonDecr : List Int → Bool
  | [] => true
  | [_] => true
  | a :: b :: t => decide (a ≤ b) && nonDecr (b :: t)

/-- The days_elapsed field of one delivery snapshot. -/
def daysElapsedOf (p : Int × Resp) : Option Int :=
  p.2.days_elapsed

/-- The days_elapsed value of one snapshot, with the display default 0
(line 266). -/
def deVal (p : Int × Resp) : Int :=
  p.2.days_elapsed.getD 0

/-- Submit-response statuses with both creatives pending. -/
def pendingStatuses : List CreativeStatusEntry :=
  [{ creative_id := some "cr_purina_dog_30s_v1", status := some "pending" },
   { creative_id := some "cr_purina_cat_30s_v1", status := some "pending" }]

/-- Status-check response with both creatives approved. -/
def approvedStatuses : List CreativeStatusEntry :=
  [{ creative_id := some "cr_purina_dog_30s_v1", status := some "approved" },
   { creative_id := some "cr_purina_cat_30s_v1", status := some "approved" }]

/-- Script in which the buy succeeds, the submit acknowledges both
creatives as pending, the first scheduled check still reports one pending,
and the second check reports both approved. -/
def cs2 : List RawResult :=
  [RawResult.ok emptyResp,
   RawResult.ok { media_buy_id := some "mb_1" },
   RawResult.ok { statuses := some pendingStatuses },
   RawResult.ok { statuses := some pendingStatuses },
   RawResult.ok { statuses := some approvedStatuses }]

/-- Script in which the buy succeeds, the submit acknowledges both
creatives as pending, and the first scheduled status check fails in
transport (an exception absorbed by the gateway, yielding an empty
result). -/
def cs6 : List RawResult :=
  [RawResult.ok emptyResp,
   RawResult.ok { media_buy_id := some "mb_1" },
   RawResult.ok { statuses := some pendingStatuses },
   RawResult.raises]

/-- Script in which the buy succeeds but the submit call fails, so the
submit response carries no statuses at all. -/
def cs8 : List RawResult :=
  [RawResult.ok emptyResp,
   RawResult.ok { media_buy_id := some "mb_1" },
   RawResult.raises]

/-- Delivery response whose days_elapsed is consistent with the queried
as-of date (days since flight start, clamped at zero). -/
def deliveryResp (de : Int) : Resp :=
  { days_elapsed := some de, pacing := some "on_track" }

/-- Script realizing the documented read schedule against a service whose
days_elapsed always equals the days between flight start and the as-of
date (clamped at 0): buy succeeds, both creatives approved at the first
check, then the seven delivery reads in phase order. -/
def cs7 : List RawResult :=
  [RawResult.ok emptyResp,
   RawResult.ok { media_buy_id := some "mb_1" },
   RawResult.ok { statuses := some pendingStatuses },
   RawResult.ok { statuses := some approvedStatuses },
   RawResult.ok (deliveryResp 0),
   RawResult.ok (deliveryResp 0),
   RawResult.ok (deliveryResp 2),
   RawResult.ok (deliveryResp 5),
   RawResult.ok (deliveryResp 8),
   RawResult.ok (deliveryResp 7),
   RawResult.ok emptyResp,
   RawResult.ok (deliveryResp 15)]

theorem step1_eq_respAt (s : List RawResult) : step1 s = respAt s 0 := by
  cases s <;> rfl

theorem respAt_tail (s : List RawResult) (j : Nat) :
    respAt s.tail j = respAt s (j + 1) := by
  cases s with
  | nil => simp [respAt]
  | cons a t => simp [respAt]

theorem step1_tail (s : List RawResult) : step1 s.tail = respAt s 1 := by
  rw [step1_eq_respAt, respAt_tail]

theorem step1_tail_tail (s : List RawResult) :
    step1 s.tail.tail = respAt s 2 := by
  rw [step1_eq_respAt, respAt_tail, respAt_tail]

theorem pollLoop_calls_are_checks (ids : List (Option String)) :
    ∀ (ds : List Int) (s : List RawResult) (c : Call),
      c ∈ (pollLoop ids ds s).1 → c = Call.check_creative_status ids := by
  intro ds
  induction ds with
  | nil => intro s c hc; simp [pollLoop] at hc
  | cons d ds ih =>
    intro s c hc
    by_cases h : allApproved ((step1 s).statuses.getD []) = true
    · simp [pollLoop, h] at hc
      exact hc
    · simp only [pollLoop, Bool.not_eq_true] at h
      simp only [pollLoop, h, Bool.false_eq_true, if_false, List.mem_cons] at hc
      rcases hc with hc | hc
      · exact hc
      · exact ih s.tail c hc

theorem classify_fst (spend budget : Rat) :
    (classify spend budget).1 = if budget > 0 then spend / budget * 100 else 0 := by
  simp only [classify]
  split_ifs <;> rfl


theorem classify_eq (spend budget : Rat) :
    classify spend budget =
      (if budget > 0 then spend / budget * 100 else 0,
       if (if budget > 0 then spend / budget * 100 else 0) ≥ 95 then "excellent"
       else if (if budget > 0 then spend / budget * 100 else 0) ≥ 80 then "good"
       else "under-delivery") := by
  simp only [classify]
  split_ifs <;> rfl

theorem classify_cases (spend budget : Rat) :
    (95 ≤ (classify spend budget).1 ∧ (classify spend budget).2 = "excellent")
    ∨ (80 ≤ (classify spend budget).1 ∧ (classify spend budget).1 < 95
        ∧ (classify spend budget).2 = "good")
    ∨ ((classify spend budget).1 < 80
        ∧ (classify spend budget).2 = "under-delivery") := by
  rw [classify_eq]
  set pct := if budget > 0 then spend / budget * 100 else 0 with hp
  by_cases h95 : pct ≥ 95
  · rw [if_pos h95]
    exact Or.inl ⟨h95, rfl⟩
  · rw [if_neg h95]
    by_cases h80 : pct ≥ 80
    · rw [if_pos h80]
      exact Or.inr (Or.inl ⟨h80, lt_of_not_ge h95, rfl⟩)
    · rw [if_neg h80]
      exact Or.inr (Or.inr ⟨lt_of_not_ge h80, rfl⟩)

/-- C10: the gateway wrapper `_call_tool` is a total function of the raw
outcome (no exception propagates to its caller); it returns the empty
mapping both when the remote call raises and when the call succeeds without
structured content, and these two cases are indistinguishable at every call
site because the wrapper maps them to the same value. -/
theorem call_tool_absorbs_failures :
    callTool RawResult.raises = emptyResp
    ∧ callTool RawResult.okNoContent = emptyResp
    ∧ (∀ m : Resp, callTool (RawResult.ok m) = m)
    ∧ callTool RawResult.raises = callTool RawResult.okNoContent :=
  ⟨rfl, rfl, fun _ => rfl, rfl⟩

/-- C9: effective CPM is computed only when impressions exceed 0: the
guarded computation yields no value for zero impressions (so no division
fault is reachable), it yields a value exactly when impressions are
positive, and both the phase-7 final report and the phase-5 in-flight
displays go through this same guard. -/
theorem cpm_guarded_by_impressions :
    (∀ spend : Rat, effectiveCpm spend 0 = none)
    ∧ (∀ (spend : Rat) (imps : Int), (effectiveCpm spend imps).isSome ↔ 0 < imps)
    ∧ (∀ (mb : Option String) (s : List RawResult),
        (phase7 mb s).out.1.cpm =
          effectiveCpm ((step1 s).spend.getD 0) ((step1 s).impressions.getD 0))
    ∧ (∀ (mb : Option String) (s : List RawResult),
        inflightCpmDisplays mb s =
          ((phase5Loop mb monitoring_days s).out).map
            (fun p => effectiveCpm (p.2.spend.getD 0) (p.2.impressions.getD 0))) := by
  refine ⟨?_, ?_, fun _ _ => rfl, fun _ _ => rfl⟩
  · intro spend
    simp [effectiveCpm]
  · intro spend imps
    unfold effectiveCpm
    split_ifs with h
    · simpa using h
    · simpa using h

/-- C4: completion classification computes the delivery percentage as
spend / budget x 100 when the budget is positive and 0 otherwise (never a
division fault), assigns the tier at the inclusive cut points 95 and 80,
and on the boundary inputs: spend 47500 against budget 50000 is exactly 95
and "excellent", while spend 47499.99 is "good". -/
theorem completion_classification_thresholds (spend budget : Rat) :
    (budget ≤ 0 → classify spend budget = (0, "under-delivery"))
    ∧ (0 < budget → (classify spend budget).1 = spend / budget * 100)
    ∧ ((classify spend budget).2 = "excellent" ↔ 95 ≤ (classify spend budget).1)
    ∧ ((classify spend budget).2 = "good" ↔
        80 ≤ (classify spend budget).1 ∧ (classify spend budget).1 < 95)
    ∧ ((classify spend budget).2 = "under-delivery" ↔
        (classify spend budget).1 < 80)
    ∧ classify 47500 50000 = (95, "excellent")
    ∧ (classify (4749999 / 100) 50000).2 = "good" := by
  refine ⟨?_, ?_, ?_, ?_, ?_, ?_, ?_⟩
  · intro h
    have hb : ¬ budget > 0 := not_lt.mpr h
    simp only [classify_eq, if_neg hb]
    norm_num
  · intro h
    rw [classify_fst, if_pos h]
  · rcases classify_cases spend budget with ⟨h, e⟩ | ⟨h1, h2, e⟩ | ⟨h, e⟩
    · rw [e]; exact ⟨fun _ => h, fun _ => rfl⟩
    · rw [e]
      exact ⟨fun hc => absurd hc (by decide),
             fun hc => absurd hc (not_le.mpr h2)⟩
    · rw [e]
      exact ⟨fun hc => absurd hc (by decide),
             fun hc => absurd hc (not_le.mpr (lt_trans h (by norm_num)))⟩
  · rcases classify_cases spend budget with ⟨h, e⟩ | ⟨h1, h2, e⟩ | ⟨h, e⟩
    · rw [e]
      exact ⟨fun hc => absurd hc (by decide),
             fun hc => absurd h (not_le.mpr hc.2)⟩
    · rw [e]; exact ⟨fun _ => ⟨h1, h2⟩, fun _ => rfl⟩
    · rw [e]
      exact ⟨fun hc => absurd hc (by decide),
             fun hc => absurd hc.1 (not_le.mpr h)⟩
  · rcases classify_cases spend budget with ⟨h, e⟩ | ⟨h1, h2, e⟩ | ⟨h, e⟩
    · rw [e]
      exact ⟨fun hc => absurd hc (by decide),
             fun hc => absurd h (not_le.mpr (lt_trans hc (by norm_num)))⟩
    · rw [e]
      exact ⟨fun hc => absurd hc (by decide),
             fun hc => absurd h1 (not_le.mpr hc)⟩
    · rw [e]; exact ⟨fun _ => h, fun _ => rfl⟩
  · rw [classify_eq]
    norm_num
  · rw [classify_eq]
    norm_num

/-- C1: the run aborts exactly when the create-media-buy response yields no
usable media-buy identifier (a missing field, or the empty string, which the
Python truthiness test also rejects); in that case the trace ends at the
create-media-buy call, so no submit_creatives, check_creative_status,
get_media_buy_delivery, update_performance_index or update_media_buy call
is ever issued, and no other condition stops the run. -/
theorem buy_failure_is_sole_hard_stop (s : List RawResult) :
    ((run s).aborted = true ↔ truthy (respAt s 1).media_buy_id = false)
    ∧ ((run s).aborted = true →
        (run s).trace = [Call.list_products, Call.create_media_buy]) := by
  have hmb : (phase2 (phase1 s).rest).out = (respAt s 1).media_buy_id := by
    have h1 : (phase2 (phase1 s).rest).out = (step1 s.tail).media_buy_id := rfl
    rw [h1, step1_tail]
  by_cases h : truthy (phase2 (phase1 s).rest).out = true
  · have hrun : (run s).aborted = false := by
      simp only [run]
      rw [if_pos h]
    constructor
    · rw [hrun, ← hmb, h]
      simp
    · intro hab
      rw [hrun] at hab
      exact absurd hab (by simp)
  · have h' : truthy (phase2 (phase1 s).rest).out = false := by
      revert h
      cases truthy (phase2 (phase1 s).rest).out <;> simp
    have hrun : (run s).aborted = true := by
      simp only [run]
      rw [if_neg h]
    have htr : (run s).trace = [Call.list_products, Call.create_media_buy] := by
      simp only [run]
      rw [if_neg h]
      rfl
    refine ⟨?_, fun _ => htr⟩
    rw [hrun, ← hmb, h']
    simp

theorem buy_failure_witness :
    truthy (respAt ([] : List RawResult) 1).media_buy_id = false
    ∧ (run []).trace = [Call.list_products, Call.create_media_buy] :=
  ⟨by decide, (buy_failure_is_sole_hard_stop []).2 (by decide)⟩

/-- C2: for every schedule of check dates, if the first check whose
returned statuses are all "approved" is the k-th one (0-based), the poll
loop issues exactly k+1 status queries, consuming none of the later
schedule; in particular on the concrete run `cs2`, where the service
reports all-approved on the 2nd of the 3 scheduled checks, exactly 2
check_creative_status calls appear in the whole trace. -/
theorem approval_poll_stops_on_convergence :
    (∀ (ids : List (Option String)) (ds : List Int) (s : List RawResult)
        (k : Nat),
      k < ds.length →
      (∀ j, j < k → allApproved ((respAt s j).statuses.getD []) = false) →
      allApproved ((respAt s k).statuses.getD []) = true →
      (pollLoop ids ds s).1.length = k + 1)
    ∧ countCheck (run cs2).trace = 2 := by
  constructor
  · intro ids ds
    induction ds with
    | nil =>
      intro s k hk
      exact absurd hk (by simp)
    | cons d ds ih =>
      intro s k hk hbef happ
      cases k with
      | zero =>
        have h0 : allApproved ((step1 s).statuses.getD []) = true := by
          rw [step1_eq_respAt]
          exact happ
        simp [pollLoop, h0]
      | succ k =>
        have h0 : allApproved ((step1 s).statuses.getD []) = false := by
          rw [step1_eq_respAt]
          exact hbef 0 (Nat.succ_pos k)
        have hrec := ih s.tail k (Nat.lt_of_succ_lt_succ hk)
          (fun j hj => by
            rw [respAt_tail]
            exact hbef (j + 1) (Nat.succ_lt_succ hj))
          (by
            rw [respAt_tail]
            exact happ)
        simp [pollLoop, h0, hrec]
  · decide

/-- Script for the convergence witness: the first check returns a pending
status, the second returns all-approved. -/
def csW2 : List RawResult :=
  [RawResult.ok { statuses := some pendingStatuses },
   RawResult.ok { statuses := some approvedStatuses }]

theorem approval_poll_witness :
    (pollLoop [] approval_days csW2).1.length = 1 + 1 :=
  approval_poll_stops_on_convergence.1 [] approval_days csW2 1 (by decide)
    (fun j hj => by
      have hj0 : j = 0 := Nat.lt_one_iff.mp hj
      rw [hj0]
      decide)
    (by decide)

/-- C3: phase 6 sends exactly one performance feedback regardless of which
action branch is taken, carrying performance_index 1.2 exactly when the
delivery snapshot reports pacing "on_track" and 0.85 for every other pacing
value including a missing one, with the fixed confidence score 0.92. -/
theorem optimization_feedback_always_sent (mb : Option String)
    (s : List RawResult) :
    (phase6 mb s).calls.filter isPerf =
      [Call.update_performance_index mb productId (perfIndex (step1 s).pacing)
        confidenceScore]
    ∧ ((step1 s).pacing = some "on_track" →
        perfIndex (step1 s).pacing = 12 / 10)
    ∧ ((step1 s).pacing ≠ some "on_track" →
        perfIndex (step1 s).pacing = 85 / 100)
    ∧ confidenceScore = 92 / 100 := by
  refine ⟨?_, ?_, ?_, rfl⟩
  · simp only [phase6]
    split_ifs with h <;>
      simp [List.filter_cons, List.filter_nil, isPerf]
  · intro h
    simp [perfIndex, h]
  · intro h
    simp [perfIndex, h]

theorem optimization_feedback_witness :
    (phase6 none []).calls.filter isPerf =
      [Call.update_performance_index none productId (perfIndex (step1 []).pacing)
        confidenceScore]
    ∧ perfIndex (step1 []).pacing = 85 / 100 :=
  ⟨(optimization_feedback_always_sent none []).1,
   (optimization_feedback_always_sent none []).2.2.1 (by decide)⟩

/-- C5: the optimization action is a function of the pacing value alone:
pacing "under_delivery" issues exactly one update_media_buy carrying the
widened overlay (the original two geographies extended by USA-TX and
USA-FL, the original exclusions reduced by dropping "politics"); every
other pacing value, including "over_delivery" and the "unknown" default
for a missing field, issues no update_media_buy at all. -/
theorem optimization_action_by_pacing (mb : Option String)
    (s : List RawResult) :
    expandedGeography = buyGeography ++ ["USA-TX", "USA-FL"]
    ∧ reducedExclusions = buyExclusions.erase "politics"
    ∧ ((step1 s).pacing.getD "unknown" = "under_delivery" →
        (phase6 mb s).calls.filter isUpdateMB =
          [Call.update_media_buy mb expandedGeography reducedExclusions])
    ∧ ((step1 s).pacing.getD "unknown" ≠ "under_delivery" →
        (phase6 mb s).calls.filter isUpdateMB = []) := by
  refine ⟨by decide, by decide, ?_, ?_⟩
  · intro h
    simp only [phase6]
    rw [if_pos h]
    simp [List.filter_cons, List.filter_nil, isUpdateMB]
  · intro h
    simp only [phase6]
    rw [if_neg h]
    simp [List.filter_cons, List.filter_nil, isUpdateMB]

/-- Script for the action witness: the optimization-cycle delivery read
reports pacing "under_delivery". -/
def csW5 : List RawResult :=
  [RawResult.ok { pacing := some "under_delivery" }]

theorem optimization_action_witness :
    (phase6 none csW5).calls.filter isUpdateMB =
      [Call.update_media_buy none expandedGeography reducedExclusions] :=
  (optimization_action_by_pacing none csW5).2.2.1 (by decide)

/-- C6 (code-bug evidence): at the failing input `cs6` — buy succeeds, the
submit response acknowledges both creatives as pending, and the first
scheduled status check fails in transport, so the gateway hands back an
empty result with no statuses — the loop-exit test of lines 193-199 is
vacuously true on the empty statuses list, so the driver declares
convergence (printing the all-approved message) and stops after the first
of the three scheduled checks, instead of treating the failed poll as no
new information and continuing with the remaining schedule; the run itself
is not aborted. -/
theorem failed_poll_halts_polling :
    countCheck (run cs6).trace = 1
    ∧ approval_days.length = 3
    ∧ (run cs6).aborted = false := by
  refine ⟨by decide, by decide, by decide⟩

/-- C7 counterexample: on the concrete script `cs7` the remote service is
consistent — every delivery response reports days_elapsed equal to the
days between flight start and the queried as-of date, clamped at zero —
yet the time-ordered series of fetched snapshots has days_elapsed values
0, 0, 2, 5, 8, 7, 15, which is not monotonically non-decreasing: the
optimization-cycle read at +7 days (as-of date 220) is issued after the
last in-flight monitoring read at +8 days (as-of date 221). -/
theorem days_elapsed_series_not_monotone :
    (run cs7).snapshots.map Prod.fst = [211, 213, 215, 218, 221, 220, 228]
    ∧ (run cs7).snapshots.map daysElapsedOf =
        [some 0, some 0, some 2, some 5, some 8, some 7, some 15]
    ∧ nonDecr ((run cs7).snapshots.map deVal) = false := by
  refine ⟨by decide, by decide, by decide⟩

/-- C7 amended: days_elapsed is monotonically non-decreasing across the
phase-5 in-flight monitoring series (launch day, +2, +5, +8), whose as-of
dates are issued in increasing order, for every remote service whose
days_elapsed is a monotone function of the as-of date; the full fetched
series need not be monotone because the optimization read at +7 days is
issued after the +8-day monitoring read. -/
theorem inflight_days_elapsed_monotone (mb : Option String)
    (s : List RawResult) (f : Int → Int) (hf : Monotone f)
    (h : ∀ p, p ∈ (phase5Loop mb monitoring_days s).out →
      p.2.days_elapsed = some (f p.1)) :
    nonDecr (((phase5Loop mb monitoring_days s).out).map deVal) = true := by
  have hout : (phase5Loop mb monitoring_days s).out =
      [(flight_start, step1 s), (flight_start + 2, step1 s.tail),
       (flight_start + 5, step1 s.tail.tail),
       (flight_start + 8, step1 s.tail.tail.tail)] := rfl
  rw [hout] at h ⊢
  have h1 := h (flight_start, step1 s) (by simp)
  have h2 := h (flight_start + 2, step1 s.tail) (by simp)
  have h3 := h (flight_start + 5, step1 s.tail.tail) (by simp)
  have h4 := h (flight_start + 8, step1 s.tail.tail.tail) (by simp)
  simp only at h1 h2 h3 h4
  simp only [List.map_cons, List.map_nil, deVal, h1, h2, h3, h4, Option.getD_some]
  simp only [nonDecr, Bool.and_eq_true, decide_eq_true_eq]
  exact ⟨hf (by omega), hf (by omega), hf (by omega), trivial⟩

/-- Script for the monotone witness: four in-flight delivery responses
whose days_elapsed equals the queried as-of date. -/
def csW7 : List RawResult :=
  [RawResult.ok { days_elapsed := some flight_start },
   RawResult.ok { days_elapsed := some (flight_start + 2) },
   RawResult.ok { days_elapsed := some (flight_start + 5) },
   RawResult.ok { days_elapsed := some (flight_start + 8) }]

theorem inflight_days_elapsed_monotone_witness :
    nonDecr (((phase5Loop none monitoring_days csW7).out).map deVal) = true :=
  inflight_days_elapsed_monotone none csW7 id monotone_id (by decide)

/-- C8 counterexample: on the concrete script `cs8` the submit call fails,
so its response carries no statuses; the run proceeds, but the tracked
creative-id set is empty rather than the two submitted creative
identifiers. -/
theorem tracked_ids_differ_from_submitted :
    (run cs8).aborted = false
    ∧ (run cs8).creative_ids = []
    ∧ (run cs8).creative_ids ≠ submittedCreativeIds.map Option.some := by
  refine ⟨by decide, by decide, by decide⟩

/-- C8 amended: after the creative-submission phase the tracked creative
identifiers are exactly the creative_id fields of the statuses carried by
the submit_creatives *response* (so they coincide with the submitted
identifiers only when the service echoes each submitted creative); every
subsequent check_creative_status call queries exactly that tracked set. -/
theorem tracked_ids_match_submit_response (mb : Option String)
    (s : List RawResult) :
    (phase3 mb s).out = ((step1 s).statuses.getD []).map trackedId
    ∧ (∀ c, c ∈ (phase3 mb s).calls → isCheck c = true →
        c = Call.check_creative_status ((phase3 mb s).out))
    ∧ ((run s).aborted = false →
        (run s).creative_ids = ((respAt s 2).statuses.getD []).map trackedId) := by
  refine ⟨rfl, ?_, ?_⟩
  · intro c hc hchk
    simp only [phase3, List.mem_cons] at hc
    rcases hc with hc | hc
    · subst hc
      simp [isCheck] at hchk
    · exact pollLoop_calls_are_checks _ _ _ _ hc
  · intro hab
    by_cases h : truthy (phase2 (phase1 s).rest).out = true
    · have hrun : (run s).creative_ids =
          (phase3 (phase2 (phase1 s).rest).out
            (phase2 (phase1 s).rest).rest).out := by
        simp only [run]
        rw [if_pos h]
      rw [hrun]
      show ((step1 (phase2 (phase1 s).rest).rest).statuses.getD []).map trackedId
        = ((respAt s 2).statuses.getD []).map trackedId
      have hr : (phase2 (phase1 s).rest).rest = s.tail.tail := rfl
      rw [hr, step1_tail_tail]
    · exfalso
      have hrun : (run s).aborted = true := by
        simp only [run]
        rw [if_neg h]
      rw [hrun] at hab
      exact absurd hab (by simp)

/-- Script for the tracked-ids witness: the submit response acknowledges
both creatives as pending and the first check approves both. -/
def csW8 : List RawResult :=
  [RawResult.ok { statuses := some pendingStatuses },
   RawResult.ok { statuses := some approvedStatuses }]

theorem tracked_ids_witness :
    (Call.check_creative_status
        [some "cr_purina_dog_30s_v1", some "cr_purina_cat_30s_v1"]
      = Call.check_creative_status ((phase3 (some "mb_1") csW8).out))
    ∧ (run cs2).creative_ids = ((respAt cs2 2).statuses.getD []).map trackedId :=
  ⟨(tracked_ids_match_submit_response (some "mb_1") csW8).2.1
      (Call.check_creative_status
        [some "cr_purina_dog_30s_v1", some "cr_purina_cat_30s_v1"])
      (by decide) (by decide),
   (tracked_ids_match_submit_response (some "mb_1") cs2).2.2 (by decide)⟩

theorem completion_classification_witness :
    (classify 47500 50000).1 = 47500 / 50000 * 100
    ∧ classify 47500 50000 = (95, "excellent") :=
  ⟨(completion_classification_thresholds 47500 50000).2.1 (by decide),
   (completion_classification_thresholds 47500 50000).2.2.2.2.2.1⟩

theorem cpm_guarded_witness :
    effectiveCpm 100 0 = none ∧ (effectiveCpm 100 5).isSome :=
  ⟨cpm_guarded_by_impressions.1 100,
   (cpm_guarded_by_impressions.2.1 100 5).mpr (by decide)⟩
